import Mathlib

set_option maxHeartbeats 1000000

/-! Shallow embedding of the cloudant_exporter supervision core
(src/cmd/cloudant_exporter/main.go): the monitorLooper polling loop, the
utils.FailBox failure window it drives, and the fan-in supervision in main.
Time is modelled in nanoseconds as Nat, matching Go time.Duration units. -/

/-- Nanoseconds in one second, Go time.Second. -/
def timeSecond : Nat := 1000000000

/-- Nanoseconds in one minute, Go time.Minute. -/
def timeMinute : Nat := 60 * timeSecond

/-- Constant failAfter from main.go line 24: 5 * time.Minute. -/
def failAfter : Nat := 5 * timeMinute

/-- Modelled from the spec: the repository package internal/utils (the FailBox
type) is not under src/; only its callers in main.go are. Spec section 4.1: a
FailureWindow holds the fixed threshold, its creation timestamp, the timestamp
of the most recent successful poll (initially unset, never cleared) and of the
most recent failed poll (informational). -/
structure FailBox where
  threshold : Nat
  created : Nat
  lastSuccess : Option Nat
  lastFailure : Option Nat
deriving Repr, DecidableEq

/-- Modelled from the spec: utils.NewFailBox(threshold) as called in main.go;
records the creation timestamp as fallback, with no success or failure yet. -/
def NewFailBox (threshold now : Nat) : FailBox :=
  { threshold := threshold, created := now, lastSuccess := none, lastFailure := none }

/-- Modelled from the spec: recordSuccess(now) sets lastSuccess to now. -/
def FailBox.Success (b : FailBox) (now : Nat) : FailBox :=
  { b with lastSuccess := some now }

/-- Modelled from the spec: recordFailure(now) does not mutate lastSuccess; it
only records the most recent failure time, used for logging. -/
def FailBox.Failure (b : FailBox) (now : Nat) : FailBox :=
  { b with lastFailure := some now }

/-- Modelled from the spec: shouldExit(now) is true iff lastSuccess is set and
now - lastSuccess exceeds the threshold, or lastSuccess was never set and
now - creation exceeds the threshold. -/
def FailBox.ShouldExit (b : FailBox) (now : Nat) : Bool :=
  match b.lastSuccess with
  | some t => decide (b.threshold < now - t)
  | none => decide (b.threshold < now - b.created)

/-- A single call fed to a FailBox: recordSuccess or recordFailure at a time. -/
inductive FBEvent
  | success (t : Nat)
  | failure (t : Nat)
deriving Repr, DecidableEq

/-- Feed one recorded event into a FailBox. -/
def FailBox.apply (b : FailBox) : FBEvent → FailBox
  | FBEvent.success t => b.Success t
  | FBEvent.failure t => b.Failure t

/-- Feed a sequence of recordSuccess/recordFailure calls, oldest first. -/
def FailBox.applyAll (b : FailBox) : List FBEvent → FailBox
  | [] => b
  | e :: es => (b.apply e).applyAll es

/-- Time of the last success event in a call sequence, given the prior value. -/
def lastSuccessTime : Option Nat → List FBEvent → Option Nat
  | acc, [] => acc
  | _, FBEvent.success t :: rest => lastSuccessTime (some t) rest
  | acc, FBEvent.failure _ :: rest => lastSuccessTime acc rest

lemma applyAll_threshold (b : FailBox) (es : List FBEvent) :
    (b.applyAll es).threshold = b.threshold := by
  induction es generalizing b with
  | nil => rfl
  | cons e es ih =>
    cases e <;> simp [FailBox.applyAll, FailBox.apply, FailBox.Success, FailBox.Failure, ih]

lemma applyAll_created (b : FailBox) (es : List FBEvent) :
    (b.applyAll es).created = b.created := by
  induction es generalizing b with
  | nil => rfl
  | cons e es ih =>
    cases e <;> simp [FailBox.applyAll, FailBox.apply, FailBox.Success, FailBox.Failure, ih]

lemma applyAll_lastSuccess (b : FailBox) (es : List FBEvent) :
    (b.applyAll es).lastSuccess = lastSuccessTime b.lastSuccess es := by
  induction es generalizing b with
  | nil => rfl
  | cons e es ih =>
    cases e <;>
      simp [FailBox.applyAll, FailBox.apply, FailBox.Success, FailBox.Failure, ih,
        lastSuccessTime]

lemma shouldExit_success_self (b : FailBox) (now : Nat) :
    (b.Success now).ShouldExit now = false := by
  simp [FailBox.Success, FailBox.ShouldExit, Nat.sub_self]

lemma shouldExit_mono (b : FailBox) {now now2 : Nat} (h : now ≤ now2)
    (hb : b.ShouldExit now = true) : b.ShouldExit now2 = true := by
  unfold FailBox.ShouldExit at hb ⊢
  cases hls : b.lastSuccess with
  | none =>
    rw [hls] at hb
    simp only [decide_eq_true_eq] at hb ⊢
    exact lt_of_lt_of_le hb (Nat.sub_le_sub_right h _)
  | some t =>
    rw [hls] at hb
    simp only [decide_eq_true_eq] at hb ⊢
    exact lt_of_lt_of_le hb (Nat.sub_le_sub_right h _)

lemma lastSuccessTime_map_failure (acc : Option Nat) (fs : List Nat) :
    lastSuccessTime acc (fs.map FBEvent.failure) = acc := by
  induction fs generalizing acc with
  | nil => rfl
  | cons f fs ih => simp [lastSuccessTime, ih]

/-- One tick body of monitorLooper.Go (main.go lines 159-168): a single
Retrieve result is recorded in the FailBox, Success when err is nil, Failure
(after logging) otherwise. ok is true when Retrieve returned no error. -/
def tickStep (b : FailBox) (ok : Bool) (now : Nat) : FailBox :=
  if ok then b.Success now else b.Failure now

/-- The ticker loop of monitorLooper.Go (main.go lines 157-175): each tick
records its Retrieve result, then checks ShouldExit and returns when it is
true. ticks is the finite trace of (Retrieve succeeded, current time) pairs;
the Bool result is true when the loop returned (exited) within the trace. -/
def runTicks : FailBox → List (Bool × Nat) → FailBox × Bool
  | b, [] => (b, false)
  | b, (ok, now) :: rest =>
    let b1 := tickStep b ok now
    if b1.ShouldExit now then (b1, true) else runTicks b1 rest

/-- monitorLooper.Go (main.go lines 144-176): the first poll, right after the
startup pause, records its result without any ShouldExit check, and only then
the ticker loop runs. -/
def monitorLooperGo (b : FailBox) (first : Bool × Nat) (ticks : List (Bool × Nat)) :
    FailBox × Bool :=
  runTicks (tickStep b first.1 first.2) ticks

/-- The goroutine wrappers in main (main.go lines 51-54 and the three like
them): run the looper and, when Go returns, send the hardcoded monitor name on
the monitorFailed channel; none when Go never returns within the trace. -/
def goroutineRun (name : String) (b : FailBox) (first : Bool × Nat)
    (ticks : List (Bool × Nat)) : Option String :=
  if (monitorLooperGo b first ticks).2 then some name else none

/-- main.go lines 97-99: the supervisor blocks on monitorFailed; on the first
message m it logs the dead monitor m and returns from main, which terminates
the process. Result: (name logged, process terminates). -/
def supervisorOnMessage (m : String) : String × Bool := (m, true)

/-- Construction parameters of one monitorLooper instance in main. -/
structure LooperConfig where
  name : String
  interval : Nat
  threshold : Nat
deriving Repr, DecidableEq

/-- The four monitorLooper instances built in main (main.go lines 46-85), with
their hardcoded goroutine names, poll intervals and the shared failAfter
threshold handed to NewFailBox. -/
def mainConfigs : List LooperConfig :=
  [ { name := "ReplicationProgressMonitor", interval := 5 * timeSecond, threshold := failAfter },
    { name := "ReplicationStatusMonitor", interval := 10 * timeMinute, threshold := failAfter },
    { name := "ThroughputMonitor", interval := 5 * timeSecond, threshold := failAfter },
    { name := "ActiveTasksMonitor", interval := 5 * timeSecond, threshold := failAfter } ]

/-- Model of math/rand Intn n (main.go line 147): some pseudo-random value in
the range 0 to n-1, as a function of the generator state. -/
def randIntn (n state : Nat) : Nat := state % n

/-- main.go lines 147-148: offset := rand.Intn(15), then sleep for
offset * int(time.Second). The value is the sleep duration in nanoseconds
spent before the first Retrieve call. -/
def startupDelay (state : Nat) : Nat := randIntn 15 state * timeSecond

/-- A reason the whole process terminates. -/
inductive ProcessExitCause
  | monitorDied (name : String)
  | httpServerFatal
deriving Repr, DecidableEq

/-- Modelled from the spec and the Go stdlib contract: main.go lines 92-94 run
log.Fatal(server.ListenAndServe()) in a goroutine; ListenAndServe only ever
returns a non-nil error, and log.Fatal always terminates the process. -/
def httpServerGoroutine (listenAndServeReturned : Bool) : Option ProcessExitCause :=
  if listenAndServeReturned then some ProcessExitCause.httpServerFatal else none

/-- Process-level termination: main returns after the first monitorFailed
message, or log.Fatal fires in the HTTP server goroutine. -/
def processTerminates (monitorMsg : Option String) (listenAndServeReturned : Bool) : Bool :=
  monitorMsg.isSome || (httpServerGoroutine listenAndServeReturned).isSome

/-- An event on the instrumented Retrieve trace: the i-th Retrieve call is
issued, or the i-th Retrieve call returns. -/
inductive RetrieveEvent
  | call (i : Nat)
  | ret (i : Nat)
deriving Repr, DecidableEq

/-- Instrumented ticker loop: the sequence of Retrieve call/return events the
loop of monitorLooper.Go produces, numbering calls from i. -/
def runTicksTrace : Nat → FailBox → List (Bool × Nat) → List RetrieveEvent
  | _, _, [] => []
  | i, b, (ok, now) :: rest =>
    let b1 := tickStep b ok now
    RetrieveEvent.call i :: RetrieveEvent.ret i ::
      (if b1.ShouldExit now then [] else runTicksTrace (i + 1) b1 rest)

/-- Instrumented monitorLooper.Go: the first poll is call 0 / return 0, then
the ticker loop events follow. -/
def goTrace (b : FailBox) (first : Bool × Nat) (ticks : List (Bool × Nat)) :
    List RetrieveEvent :=
  RetrieveEvent.call 0 :: RetrieveEvent.ret 0 ::
    runTicksTrace 1 (tickStep b first.1 first.2) ticks

/-- Strict sequentiality of a Retrieve trace: starting at index i, the events
are exactly call i, ret i, call i+1, ret i+1, ...: every call returns before
the next call is issued. -/
def seqFrom : Nat → List RetrieveEvent → Bool
  | _, [] => true
  | i, RetrieveEvent.call j :: RetrieveEvent.ret k :: rest =>
    j == i && k == i && seqFrom (i + 1) rest
  | _, _ => false

lemma shouldExit_applyAll_failures (b : FailBox) (fs : List Nat) (now : Nat) :
    (b.applyAll (fs.map FBEvent.failure)).ShouldExit now = b.ShouldExit now := by
  unfold FailBox.ShouldExit
  simp only [applyAll_lastSuccess, lastSuccessTime_map_failure, applyAll_threshold,
    applyAll_created]

lemma runTicks_all_success (b : FailBox) (ticks : List (Bool × Nat))
    (h : ∀ p ∈ ticks, p.1 = true) : (runTicks b ticks).2 = false := by
  induction ticks generalizing b with
  | nil => rfl
  | cons p rest ih =>
    obtain ⟨ok, now⟩ := p
    have hok : ok = true := h (ok, now) (List.mem_cons_self _ _)
    subst hok
    have hse : (tickStep b true now).ShouldExit now = false := by
      simp [tickStep, shouldExit_success_self]
    simp only [runTicks, hse]
    simpa using ih (tickStep b true now) (fun p hp => h p (List.mem_cons_of_mem _ hp))

lemma seqFrom_runTicksTrace (ticks : List (Bool × Nat)) :
    ∀ i b, seqFrom i (runTicksTrace i b ticks) = true := by
  induction ticks with
  | nil => intro i b; rfl
  | cons p rest ih =>
    intro i b
    obtain ⟨ok, now⟩ := p
    simp only [runTicksTrace]
    cases h : (tickStep b ok now).ShouldExit now
    · simp [seqFrom, h, ih]
    · simp [seqFrom, h]

/-- C1: for every sequence of recordSuccess/recordFailure calls fed to a fresh
FailBox, shouldExit(now) is true iff a success was recorded and now minus the
last success time exceeds the threshold, or no success was ever recorded and
now minus the creation time exceeds the threshold; and once true it stays true
at any later time under further failures, until a new success occurs. -/
theorem c1_shouldExit_characterisation (thr t0 : Nat) (es : List FBEvent) (now : Nat) :
    (((NewFailBox thr t0).applyAll es).ShouldExit now = true ↔
      ((∃ t, lastSuccessTime none es = some t ∧ thr < now - t) ∨
        (lastSuccessTime none es = none ∧ thr < now - t0))) ∧
    (∀ fs : List Nat, ∀ now2 : Nat, now ≤ now2 →
      ((NewFailBox thr t0).applyAll es).ShouldExit now = true →
      (((NewFailBox thr t0).applyAll es).applyAll (fs.map FBEvent.failure)).ShouldExit now2 =
        true) := by
  have hls : ((NewFailBox thr t0).applyAll es).lastSuccess = lastSuccessTime none es :=
    applyAll_lastSuccess _ es
  have hthr : ((NewFailBox thr t0).applyAll es).threshold = thr := applyAll_threshold _ es
  have hcr : ((NewFailBox thr t0).applyAll es).created = t0 := applyAll_created _ es
  constructor
  · cases hL : lastSuccessTime none es with
    | none =>
      rw [hL] at hls
      simp only [FailBox.ShouldExit, hls, hthr, hcr, hL]
      simp
    | some t =>
      rw [hL] at hls
      simp only [FailBox.ShouldExit, hls, hthr, hL]
      simp
  · intro fs now2 hle hexit
    rw [shouldExit_applyAll_failures]
    exact shouldExit_mono _ hle hexit

/-- Witness for C1 at a concrete trace: one failure at time 3, evaluated at
time 10 against threshold 5, stays exited at time 20 after another failure. -/
theorem c1_witness :
    (((NewFailBox 5 0).applyAll [FBEvent.failure 3]).applyAll
        ([12].map FBEvent.failure)).ShouldExit 20 = true :=
  (c1_shouldExit_characterisation 5 0 [FBEvent.failure 3] 10).2 [12] 20 (by decide) (by decide)

/-- C2: if Retrieve succeeds on the first poll and on every ticker tick, the
loop of monitorLooper.Go never exits and the goroutine never publishes the
monitor name on the monitorFailed channel. -/
theorem c2_always_success_never_exits (name : String) (b : FailBox) (first : Bool × Nat)
    (ticks : List (Bool × Nat)) (_hf : first.1 = true) (h : ∀ p ∈ ticks, p.1 = true) :
    (monitorLooperGo b first ticks).2 = false ∧ goroutineRun name b first ticks = none := by
  have hrun : (monitorLooperGo b first ticks).2 = false := runTicks_all_success _ _ h
  exact ⟨hrun, by simp [goroutineRun, hrun]⟩

/-- Witness for C2 at a concrete all-success trace. -/
theorem c2_witness :
    (monitorLooperGo (NewFailBox 7 0) (true, 1) [(true, 2), (true, 100)]).2 = false ∧
      goroutineRun "ThroughputMonitor" (NewFailBox 7 0) (true, 1)
        [(true, 2), (true, 100)] = none :=
  c2_always_success_never_exits "ThroughputMonitor" (NewFailBox 7 0) (true, 1)
    [(true, 2), (true, 100)] rfl (by decide)

/-- C3 counterexample: with threshold 0 and creation time 0, the first poll
fails at time 1, at which point shouldExit(1) is already true; yet the loop
has not exited, because monitorLooper.Go performs no ShouldExit check after
the first poll (exit checks happen only inside the ticker loop). -/
theorem c3_counterexample :
    (tickStep (NewFailBox 0 0) false 1).ShouldExit 1 = true ∧
      (monitorLooperGo (NewFailBox 0 0) (false, 1) []).2 = false := by
  decide

/-- C3 amended: the first poll records its success or failure but shouldExit
is not evaluated after it; the loop cannot exit before the first ticker-driven
poll, and from the first ticker tick on each tick is evaluated as usual, the
tick exiting exactly when ShouldExit is true after recording it. -/
theorem c3_amended_first_poll_no_exit_check (b : FailBox) (ok : Bool) (t : Nat)
    (ticks : List (Bool × Nat)) :
    (monitorLooperGo b (ok, t) []).2 = false ∧
      monitorLooperGo b (ok, t) ticks = runTicks (tickStep b ok t) ticks ∧
      (∀ ok2 t2, (monitorLooperGo b (ok, t) [(ok2, t2)]).2 =
        (tickStep (tickStep b ok t) ok2 t2).ShouldExit t2) := by
  refine ⟨rfl, rfl, ?_⟩
  intro ok2 t2
  cases h : (tickStep (tickStep b ok t) ok2 t2).ShouldExit t2 <;>
    simp [monitorLooperGo, runTicks, h]

/-- C4: a single recordSuccess after any number of consecutive recordFailures
resets the exit clock: immediately after Success at now, ShouldExit at now is
false, whatever the threshold and however many failures preceded it. -/
theorem c4_success_resets_exit_clock (thr t0 : Nat) (fs : List Nat) (now : Nat) :
    (((NewFailBox thr t0).applyAll (fs.map FBEvent.failure)).Success now).ShouldExit now =
      false :=
  shouldExit_success_self _ _

/-- C5: on each ticker tick the loop records the one Retrieve result (Success
on ok, Failure on error), then evaluates ShouldExit, and returns exactly when
it is true; otherwise it continues with the remaining ticks. -/
theorem c5_tick_order (b : FailBox) (ok : Bool) (now : Nat) (rest : List (Bool × Nat)) :
    tickStep b true now = b.Success now ∧
    tickStep b false now = b.Failure now ∧
    runTicks b ((ok, now) :: rest) =
      (if (tickStep b ok now).ShouldExit now then (tickStep b ok now, true)
        else runTicks (tickStep b ok now) rest) ∧
    ((runTicks b ((ok, now) :: rest)).2 = false ↔
      ((tickStep b ok now).ShouldExit now = false ∧
        (runTicks (tickStep b ok now) rest).2 = false)) := by
  refine ⟨rfl, rfl, rfl, ?_⟩
  cases h : (tickStep b ok now).ShouldExit now <;> simp [runTicks, h]

/-- C6: when a looper's Go returns within its trace, its goroutine publishes
exactly the hardcoded name of that source on the fan-in channel, and the
supervisor that receives the message logs that name and terminates the
process. -/
theorem c6_exit_publishes_source_name (name : String) (b : FailBox) (first : Bool × Nat)
    (ticks : List (Bool × Nat)) (h : (monitorLooperGo b first ticks).2 = true) :
    goroutineRun name b first ticks = some name ∧
      supervisorOnMessage name = (name, true) :=
  ⟨by simp [goroutineRun, h], rfl⟩

/-- Witness for C6 at a concrete exiting trace. -/
theorem c6_witness :
    goroutineRun "ReplicationProgressMonitor" (NewFailBox 0 0) (false, 0) [(false, 1)] =
        some "ReplicationProgressMonitor" ∧
      supervisorOnMessage "ReplicationProgressMonitor" =
        ("ReplicationProgressMonitor", true) :=
  c6_exit_publishes_source_name "ReplicationProgressMonitor" (NewFailBox 0 0) (false, 0)
    [(false, 1)] (by decide)

/-- C7: for every generator state, the startup delay before the first Retrieve
is rand.Intn(15) seconds: at least 0 and strictly below 15 seconds. -/
theorem c7_startup_jitter_bound (state : Nat) :
    randIntn 15 state < 15 ∧
      startupDelay state = randIntn 15 state * timeSecond ∧
      0 ≤ startupDelay state ∧
      startupDelay state < 15 * timeSecond := by
  refine ⟨Nat.mod_lt _ (by decide), rfl, Nat.zero_le _, ?_⟩
  simp only [startupDelay, randIntn, timeSecond]
  omega

/-- C8: in every run of monitorLooper.Go, the instrumented trace of Retrieve
calls is strictly sequential: call i returns before call i+1 is issued, for
the first poll and every ticker tick up to exit. -/
theorem c8_retrieve_calls_sequential (b : FailBox) (first : Bool × Nat)
    (ticks : List (Bool × Nat)) :
    seqFrom 0 (goTrace b first ticks) = true := by
  have h := seqFrom_runTicksTrace ticks 1 (tickStep b first.1 first.2)
  simp [goTrace, seqFrom, h]

/-- C9 counterexample: not every configured source has its failure threshold
above its poll interval: the ReplicationStatusMonitor looper polls every 10
minutes while its FailBox threshold is failAfter = 5 minutes. -/
theorem c9_counterexample :
    (¬ ∀ c ∈ mainConfigs, 0 < c.interval ∧ 0 < c.threshold ∧ c.interval < c.threshold) ∧
      (mainConfigs.get ⟨1, by decide⟩).name = "ReplicationStatusMonitor" ∧
      (mainConfigs.get ⟨1, by decide⟩).threshold < (mainConfigs.get ⟨1, by decide⟩).interval := by
  decide

/-- C9 amended: every configured source has poll interval > 0 and failure
threshold > 0, and the threshold exceeds the interval for every source except
ReplicationStatusMonitor, whose 10-minute interval is twice its 5-minute
threshold. -/
theorem c9_amended_intervals_thresholds :
    (∀ c ∈ mainConfigs, 0 < c.interval ∧ 0 < c.threshold) ∧
      (∀ c ∈ mainConfigs, c.name ≠ "ReplicationStatusMonitor" → c.interval < c.threshold) ∧
      (mainConfigs.get ⟨1, by decide⟩).interval =
        2 * (mainConfigs.get ⟨1, by decide⟩).threshold := by
  decide

/-- Witness for the amended C9 at a concrete configured source. -/
theorem c9_amended_witness :
    0 < (LooperConfig.mk "ThroughputMonitor" (5 * timeSecond) failAfter).interval ∧
      0 < (LooperConfig.mk "ThroughputMonitor" (5 * timeSecond) failAfter).threshold :=
  c9_amended_intervals_thresholds.1
    (LooperConfig.mk "ThroughputMonitor" (5 * timeSecond) failAfter) (by decide)

/-- C10: if ListenAndServe ever returns, the log.Fatal in the HTTP server
goroutine terminates the process even when no monitor has died; so process
exit is not triggered solely by a source exceeding its failure threshold, and
with neither event the process keeps running. -/
theorem c10_http_server_fatal_terminates :
    httpServerGoroutine true = some ProcessExitCause.httpServerFatal ∧
      processTerminates none true = true ∧
      (∀ m : Option String, processTerminates m true = true) ∧
      processTerminates none false = false := by
  refine ⟨rfl, rfl, ?_, rfl⟩
  intro m
  simp [processTerminates, httpServerGoroutine]
